import Mathlib

/-!
Verification development for `xutil.h` of the awesome window manager.

The repository source is the single header `src/xutil.h`: it declares the
property-reading helper `xgettextprop` and the two UI-callback prototypes
`uicb_spawn` and `uicb_exec` via the `UICB_PROTO` macro of `util.h`, guarded
by the include guard `AWESOME_XUTIL_H`.  The implementation `xutil.c` and the
utility header `util.h` are not part of the source; where their behaviour is
needed it is modelled from the specification, as marked on each definition.
-/

/-- X11 window identifier: an opaque integer handle naming a server-side
window object. -/
abbrev Window := Nat

/-- X11 atom: an integer identifier interned by the display server that
names a property. -/
abbrev Atom := Nat

/-- Modelled from the spec: the display connection (`Display *`).  The X
server behind it is not part of the source; it is modelled as the map from
a window and a property atom to the text value of that property on that
window, when the property exists.  Text values and buffer contents are byte
lists (`List Nat`), so that null termination is explicit. -/
structure Display where
  props : Window → Atom → Option (List Nat)

/-- Modelled from the spec: copying a C string `s` together with its null
terminator into the front of the caller-owned buffer `buf`.  Bytes of `buf`
beyond the terminator are left untouched, and nothing outside the buffer
exists in the model. -/
def writeCString (buf : List Nat) (s : List Nat) : List Nat :=
  (s ++ [0]).take buf.length ++ buf.drop (s.length + 1)

/-- Modelled from the spec: the implementation of `xgettextprop` is absent
from the source (`src/xutil.h` only declares it).  Per the spec, the reader
returns false when the named property is absent and true when it exists and
its value, null terminator included, fits in the supplied capacity, in which
case the value is copied into the caller's buffer and terminated; with a
non-positive capacity nothing is written.  The overflow case is left
unspecified by the spec ("truncate or fail"), modelled here as failure with
no write.  The result pairs the `Bool` status with the buffer contents after
the call. -/
def xgettextprop (disp : Display) (w : Window) (p : Atom)
    (buf : List Nat) (len : Int) : Bool × List Nat :=
  if len ≤ 0 then (false, buf)
  else
    match disp.props w p with
    | none => (false, buf)
    | some s =>
        if (s.length : Int) + 1 ≤ len then (true, writeCString buf s)
        else (false, buf)

/-- Modelled from the spec: the caller-visible mutable state around a call
to `xgettextprop` — the display connection's server-side state, the
destination buffer, and any other caller-visible mutable buffers. -/
structure XState where
  display : Display
  destBuffer : List Nat
  otherBuffers : List (List Nat)

/-- Modelled from the spec: a call to `xgettextprop` acting on the whole
caller-visible state, returning the status and the state after the call.
The spec allows it to write into the caller's destination buffer only. -/
def xgettextpropCall (st : XState) (w : Window) (p : Atom) (len : Int) :
    Bool × XState :=
  ((xgettextprop st.display w p st.destBuffer len).1,
    ⟨st.display, (xgettextprop st.display w p st.destBuffer len).2,
      st.otherBuffers⟩)

/-- The C types appearing in the declarations of `xutil.h`. -/
inductive CType where
  | displayPtr
  | window
  | atom
  | charPtr
  | ssizeT
  | xBool
  deriving DecidableEq

/-- Where a type used by `xutil.h` comes from: the utility header `util.h`
(directly or through its includes) or the X11 client library. -/
inductive TypeOrigin where
  | utilHeader
  | x11lib
  deriving DecidableEq

/-- Modelled from the spec: `util.h` is not in the source; the spec states
that the boolean type comes from the utility header and that `Display`,
`Window` and `Atom` are the X11 client library's core types.  The remaining
C types of the signature reach the header through `util.h` and its includes. -/
def typeOrigin : CType → TypeOrigin
  | .displayPtr => .x11lib
  | .window => .x11lib
  | .atom => .x11lib
  | .charPtr => .utilHeader
  | .ssizeT => .utilHeader
  | .xBool => .utilHeader

/-- A top-level item a C header can declare: a function declaration with
return and parameter types, an invocation of the `UICB_PROTO` callback
macro, a structure definition, or a variable declaration.  `xutil.h` uses
only the first two; the last two exist so that "declares no data or state"
is a contentful statement. -/
inductive HeaderDecl where
  | funDecl (name : String) (ret : CType) (params : List CType)
  | uicbProto (name : String)
  | structDef (name : String) (fields : List (String × CType))
  | varDecl (name : String) (ty : CType)
  deriving DecidableEq

/-- The symbol name a declaration introduces. -/
def nameOf : HeaderDecl → String
  | .funDecl n _ _ => n
  | .uicbProto n => n
  | .structDef n _ => n
  | .varDecl n _ => n

/-- The parameter types of a declaration (empty for an unexpanded macro
invocation and for non-function items). -/
def paramsOf : HeaderDecl → List CType
  | .funDecl _ _ ps => ps
  | _ => []

/-- All types a declaration mentions. -/
def typesOf : HeaderDecl → List CType
  | .funDecl _ r ps => r :: ps
  | .uicbProto _ => []
  | .structDef _ fields => fields.map (fun f => f.2)
  | .varDecl _ t => [t]

/-- Whether a declaration defines a data structure or an object of its own. -/
def definesData : HeaderDecl → Bool
  | .structDef _ _ => true
  | .varDecl _ _ => true
  | _ => false

/-- Modelled from the spec: expanding the `UICB_PROTO` macro of the missing
`util.h`.  The spec gives only that the macro defines the one canonical
shape of a UI callback, so the expansion is parametrised by that unknown
shape and return type and applies them uniformly to every callback name. -/
def expandDecl (shape : List CType) (ret : CType) : HeaderDecl → HeaderDecl
  | .uicbProto n => .funDecl n ret shape
  | d => d

/-- The declarations of `src/xutil.h`, lines 28–30, in order: the prototype
`Bool xgettextprop(Display *, Window, Atom, char *, ssize_t);` and the two
macro invocations `UICB_PROTO(uicb_spawn);` and `UICB_PROTO(uicb_exec);`. -/
def xutil_h : List HeaderDecl :=
  [HeaderDecl.funDecl "xgettextprop" CType.xBool
      [CType.displayPtr, CType.window, CType.atom, CType.charPtr, CType.ssizeT],
    HeaderDecl.uicbProto "uicb_spawn",
    HeaderDecl.uicbProto "uicb_exec"]

/-- A C header as the preprocessor sees it: its include-guard macro and the
declarations between the guard lines. -/
structure CHeader where
  guardMacro : String
  decls : List HeaderDecl

/-- `src/xutil.h` with its include guard `AWESOME_XUTIL_H`
(lines 23–24 and 32). -/
def xutilHeader : CHeader :=
  ⟨"AWESOME_XUTIL_H", xutil_h⟩

/-- One textual inclusion of a guarded header into a translation unit whose
state is the set of defined macros and the declarations accumulated so far:
if the guard is already defined the inclusion contributes nothing, otherwise
it defines the guard and appends the header's declarations. -/
def includeHeader (h : CHeader) (st : List String × List HeaderDecl) :
    List String × List HeaderDecl :=
  if h.guardMacro ∈ st.1 then st
  else (h.guardMacro :: st.1, st.2 ++ h.decls)

/-- Including a header `n` times into an initially empty translation unit. -/
def includeTimes (h : CHeader) : Nat → List String × List HeaderDecl
  | 0 => ([], [])
  | n + 1 => includeHeader h (includeTimes h n)

/-- Display used by concrete witnesses: every window carries the two-byte
text property value `[72, 105]` for every atom. -/
def demoDisplay : Display :=
  ⟨fun _ _ => some [72, 105]⟩

/-- Display used by concrete witnesses: no window carries any property. -/
def emptyDisplay : Display :=
  ⟨fun _ _ => none⟩

/-- C1: for every display connection, window, buffer and capacity, when the
named property does not exist on the given window, `xgettextprop` returns
false. -/
theorem xgettextprop_absent_false (disp : Display) (w : Window) (p : Atom)
    (buf : List Nat) (len : Int) (h : disp.props w p = none) :
    (xgettextprop disp w p buf len).1 = false := by
  unfold xgettextprop
  split
  · rfl
  · rw [h]

/-- Witness for C1 at a concrete display with no properties. -/
theorem xgettextprop_absent_false_witness :
    emptyDisplay.props 5 7 = none ∧
      (xgettextprop emptyDisplay 5 7 [9, 9] 2).1 = false :=
  ⟨rfl, xgettextprop_absent_false emptyDisplay 5 7 [9, 9] 2 rfl⟩

/-- C2: when the named property exists on the given window with value `s`
and `s` together with its null terminator fits in the supplied capacity
(and the caller's buffer really has that capacity), `xgettextprop` returns
true and the destination buffer holds `s` as a null-terminated string
occupying no more than the given capacity, the buffer's extent unchanged. -/
theorem xgettextprop_found_fits (disp : Display) (w : Window) (p : Atom)
    (buf : List Nat) (len : Int) (s : List Nat)
    (hs : disp.props w p = some s)
    (hfit : (s.length : Int) + 1 ≤ len)
    (hcap : len ≤ (buf.length : Int)) :
    (xgettextprop disp w p buf len).1 = true ∧
      ((xgettextprop disp w p buf len).2).take s.length = s ∧
      ((xgettextprop disp w p buf len).2)[s.length]? = some 0 ∧
      (s.length : Int) + 1 ≤ len ∧
      ((xgettextprop disp w p buf len).2).length = buf.length := by
  have hpos : ¬ len ≤ 0 := by omega
  have hle : s.length + 1 ≤ buf.length := by omega
  have hwrite : writeCString buf s = s ++ 0 :: buf.drop (s.length + 1) := by
    unfold writeCString
    have h1 : (s ++ [0]).take buf.length = s ++ [0] := by
      apply List.take_of_length_le
      simp only [List.length_append, List.length_cons, List.length_nil]
      omega
    rw [h1]
    simp
  have hres : xgettextprop disp w p buf len = (true, writeCString buf s) := by
    simp only [xgettextprop, hs, if_neg hpos, if_pos hfit]
  rw [hres]
  refine ⟨rfl, ?_, ?_, hfit, ?_⟩
  · rw [hwrite]
    exact List.take_left s (0 :: buf.drop (s.length + 1))
  · rw [hwrite]
    rw [List.getElem?_append_right (Nat.le_refl s.length)]
    simp
  · rw [hwrite]
    simp only [List.length_append, List.length_cons, List.length_drop]
    omega

/-- Witness for C2: the two-byte value `[72, 105]` read into a four-byte
buffer with capacity 4. -/
theorem xgettextprop_found_fits_witness :
    demoDisplay.props 1 2 = some [72, 105] ∧
      ((2 : Int) + 1 ≤ 4 ∧ (4 : Int) ≤ 4) ∧
      (xgettextprop demoDisplay 1 2 [9, 9, 9, 9] 4).1 = true ∧
      ((xgettextprop demoDisplay 1 2 [9, 9, 9, 9] 4).2).take 2 = [72, 105] ∧
      ((xgettextprop demoDisplay 1 2 [9, 9, 9, 9] 4).2)[2]? = some 0 ∧
      ((xgettextprop demoDisplay 1 2 [9, 9, 9, 9] 4).2).length = 4 := by
  have h := xgettextprop_found_fits demoDisplay 1 2 [9, 9, 9, 9] 4 [72, 105]
    rfl (by decide) (by decide)
  exact ⟨rfl, ⟨by decide, by decide⟩, h.1, h.2.1, h.2.2.1, h.2.2.2.2⟩

/-- C3: calling `xgettextprop` with a capacity of zero writes nothing into
(or past) the destination buffer: the buffer after the call is exactly the
buffer before it. -/
theorem xgettextprop_zero_capacity (disp : Display) (w : Window) (p : Atom)
    (buf : List Nat) :
    (xgettextprop disp w p buf 0).2 = buf := rfl

/-- C4: the only caller-visible mutable state a call to `xgettextprop`
modifies is the caller-supplied destination buffer; the display connection's
state and every other caller-visible buffer are unchanged by the call. -/
theorem xgettextprop_frame (st : XState) (w : Window) (p : Atom) (len : Int) :
    (xgettextpropCall st w p len).2.display = st.display ∧
      (xgettextpropCall st w p len).2.otherBuffers = st.otherBuffers :=
  ⟨rfl, rfl⟩

/-- C5: the source declares exactly three symbols, in order the
property-reading helper `xgettextprop` (a function declaration) and the two
UI-callback prototypes `uicb_spawn` and `uicb_exec` (macro invocations),
and no others. -/
theorem xutil_h_three_symbols :
    xutil_h.length = 3 ∧
      xutil_h.map nameOf = ["xgettextprop", "uicb_spawn", "uicb_exec"] ∧
      xutil_h = [HeaderDecl.funDecl "xgettextprop" CType.xBool
          [CType.displayPtr, CType.window, CType.atom, CType.charPtr,
            CType.ssizeT],
        HeaderDecl.uicbProto "uicb_spawn",
        HeaderDecl.uicbProto "uicb_exec"] :=
  ⟨rfl, rfl, rfl⟩

/-- C6: the declaration of `xgettextprop` in the header takes exactly five
parameters — `Display *`, `Window`, `Atom`, `char *`, `ssize_t`, in that
order — and returns the boolean-like `Bool`. -/
theorem xgettextprop_signature :
    xutil_h.find? (fun d => nameOf d == "xgettextprop") =
        some (HeaderDecl.funDecl "xgettextprop" CType.xBool
          [CType.displayPtr, CType.window, CType.atom, CType.charPtr,
            CType.ssizeT]) ∧
      (paramsOf (HeaderDecl.funDecl "xgettextprop" CType.xBool
        [CType.displayPtr, CType.window, CType.atom, CType.charPtr,
          CType.ssizeT])).length = 5 := by
  constructor
  · rfl
  · rfl

/-- C7: `uicb_spawn` and `uicb_exec` are both declared through the same
`UICB_PROTO` macro invocation form, so whatever parameter shape and return
type the macro fixes, the two expanded callbacks have identical parameter
shapes and either can be invoked through the one agreed callback argument
shape. -/
theorem uicb_same_shape (shape : List CType) (ret : CType) :
    HeaderDecl.uicbProto "uicb_spawn" ∈ xutil_h ∧
      HeaderDecl.uicbProto "uicb_exec" ∈ xutil_h ∧
      paramsOf (expandDecl shape ret (HeaderDecl.uicbProto "uicb_spawn")) =
        paramsOf (expandDecl shape ret (HeaderDecl.uicbProto "uicb_exec")) :=
  ⟨by decide, by decide, rfl⟩

/-- C8: the source defines no data structures or state of its own — no
declaration of the header is a structure definition or a variable — and the
only typed entities it introduces are the parameter and return types of its
declared functions, each coming from the utility header or from the X11
client library. -/
theorem xutil_h_no_data :
    (xutil_h.all fun d => !definesData d) = true ∧
      (xutil_h.map typesOf).flatten =
        [CType.xBool, CType.displayPtr, CType.window, CType.atom,
          CType.charPtr, CType.ssizeT] ∧
      ((xutil_h.map typesOf).flatten.all fun t =>
        typeOrigin t == TypeOrigin.utilHeader ||
          typeOrigin t == TypeOrigin.x11lib) = true :=
  ⟨rfl, rfl, rfl⟩

/-- C9: including the header any positive number of times in one translation
unit is equivalent to including it once — the `AWESOME_XUTIL_H` include
guard makes repeated inclusion contribute the declarations exactly once. -/
theorem xutil_include_idempotent (n : Nat) :
    includeTimes xutilHeader (n + 1) = includeTimes xutilHeader 1 := by
  induction n with
  | zero => rfl
  | succ m ih =>
      show includeHeader xutilHeader (includeTimes xutilHeader (m + 1)) =
        includeTimes xutilHeader 1
      rw [ih]
      decide

/-- C10: the capacity parameter is the signed `ssize_t`, modelled as `Int`,
so every negative capacity is a representable argument; for every call with
capacity at most zero, no byte of the destination buffer is written. -/
theorem xgettextprop_nonpositive_capacity (disp : Display) (w : Window)
    (p : Atom) (buf : List Nat) (len : Int) (h : len ≤ 0) :
    (xgettextprop disp w p buf len).2 = buf := by
  unfold xgettextprop
  rw [if_pos h]

/-- Witness for C10 at the concrete negative capacity `-3`. -/
theorem xgettextprop_nonpositive_capacity_witness :
    (-3 : Int) ≤ 0 ∧
      (xgettextprop demoDisplay 0 0 [1, 2, 3] (-3)).2 = [1, 2, 3] :=
  ⟨by decide,
    xgettextprop_nonpositive_capacity demoDisplay 0 0 [1, 2, 3] (-3)
      (by decide)⟩
